import Mathlib

/-!
# Splitter (src/catapps/aggtree/splitter.cpp)

A shallow embedding of the class Splitter of namespace ndn::chunks.

The Splitter owns a version discoverer and a segment fetcher, connects two
handlers to the signals of the discoverer, starts it, and offers handleData
as the data callback of the fetcher.  The embedding keeps the members of the
class as fields of a record, the signal connections and the calls made on the
collaborators as lists, and an exception thrown by a handler as the message it
carries.
-/

namespace ndn.chunks

/-! ## Data model -/

/-- An NDN name, given by its components. -/
abbrev Name := List String

/-- A Data packet: the name it carries and its content bytes. -/
structure Data where
  name : Name
  content : String
deriving DecidableEq, Repr

/-- The batch type of handleData, std::map<uint64_t, std::shared_ptr<const Data>>,
as the list of its (sequence number, packet) entries. -/
abbrev SegmentMap := List (Nat × Data)

/-- The validator referenced by m_validator: its verdict on a packet, and the
packets that have been submitted to it so far. -/
structure Validator where
  accepts : Data → Bool
  validateCalls : List Data

/-- A data callback handed to SplitInterests::run.  handleData stands for
FORWARD_TO_MEM_FN(handleData) (splitter.cpp:25); any other callback is external. -/
inductive DataCallback where
  | handleData
  | external (tag : Nat)
deriving DecidableEq, Repr

/-- An error callback handed to SplitInterests::run.  throwRuntimeError stands for
the lambda of splitter.cpp:26-27, whose body is NDN_THROW(std::runtime_error(msg));
any other callback is external. -/
inductive ErrorCallback where
  | throwRuntimeError
  | external (tag : Nat)
deriving DecidableEq, Repr

/-- One invocation of SplitInterests::run: the name and the two callbacks passed. -/
structure FetchCall where
  versionedName : Name
  onData : DataCallback
  onError : ErrorCallback
deriving DecidableEq, Repr

/-- The segment fetcher held in m_split, as the invocations of its run so far. -/
structure SplitInterests where
  runCalls : List FetchCall
deriving DecidableEq, Repr

/-- A slot connected to the signal onDiscoverySuccess.  startFetch is the lambda of
splitter.cpp:23-27; a slot connected by other code is external. -/
inductive SuccessSlot where
  | external (tag : Nat)
  | startFetch
deriving DecidableEq, Repr

/-- A slot connected to the signal onDiscoveryFailure.  throwRuntimeError is the
lambda of splitter.cpp:28-29; a slot connected by other code is external. -/
inductive FailureSlot where
  | external (tag : Nat)
  | throwRuntimeError
deriving DecidableEq, Repr

/-- The version discoverer held in m_discover: the slots connected to its two
signals, in connection order, and how often its run has been called. -/
structure DiscoverVersion where
  onDiscoverySuccess : List SuccessSlot
  onDiscoveryFailure : List FailureSlot
  runCalls : Nat
deriving DecidableEq, Repr

/-- The members of a Splitter object.  m_outputStream is the content of the stream
the object writes to; debugLog collects the messages handed to spdlog::debug. -/
structure Splitter where
  m_validator : Validator
  m_outputStream : String
  m_discover : Option DiscoverVersion
  m_split : Option SplitInterests
  m_nextToPrint : Nat
  m_bufferedData : SegmentMap
  debugLog : List String

/-- The result of delivering a callback: the state afterwards and, when a handler
threw, the message of the std::runtime_error as its what() gives it. -/
structure Outcome where
  state : Splitter
  raised : Option String

/-! ## Collaborators -/

/-- Connecting a slot to onDiscoverySuccess appends it to the connected slots. -/
def DiscoverVersion.connectSuccess (d : DiscoverVersion) (slot : SuccessSlot) : DiscoverVersion :=
  { d with onDiscoverySuccess := d.onDiscoverySuccess ++ [slot] }

/-- Connecting a slot to onDiscoveryFailure appends it to the connected slots. -/
def DiscoverVersion.connectFailure (d : DiscoverVersion) (slot : FailureSlot) : DiscoverVersion :=
  { d with onDiscoveryFailure := d.onDiscoveryFailure ++ [slot] }

/-- Modelled from the spec: DiscoverVersion::run is not part of splitter.cpp.  The
spec describes it as non-blocking: it kicks discovery off and returns, and the
result arrives later as one emission of onDiscoverySuccess or onDiscoveryFailure.
The model counts the call. -/
def DiscoverVersion.run (d : DiscoverVersion) : DiscoverVersion :=
  { d with runCalls := d.runCalls + 1 }

/-- Modelled from the spec: SplitInterests::run is not part of splitter.cpp.  The
spec describes it as taking a versioned name, a data callback and an error
callback, which it invokes later.  The model records the invocation. -/
def SplitInterests.run (sp : SplitInterests) (versionedName : Name)
    (onData : DataCallback) (onError : ErrorCallback) : SplitInterests :=
  { sp with runCalls := sp.runCalls ++ [⟨versionedName, onData, onError⟩] }

/-- The NUL character, which ends a C string. -/
def nul : Char := Char.ofNat 0

/-- The message of std::runtime_error(msg) as a catcher reads it: what() returns a C
string, which ends at the first NUL character of msg. -/
def runtimeErrorWhat (msg : String) : String :=
  ⟨msg.data.takeWhile fun c => c != nul⟩

/-- True when the string holds no NUL character. -/
def nulFree (msg : String) : Bool :=
  msg.data.all fun c => c != nul

/-- Invoking an error callback with a message: the lambda of splitter.cpp:26-27
throws std::runtime_error(msg), read through what(); an external callback is not code
of the Splitter and raises nothing here. -/
def ErrorCallback.invoke : ErrorCallback → String → Option String
  | .throwRuntimeError, msg => some (runtimeErrorWhat msg)
  | .external _, _ => none

/-! ## Splitter -/

/-- Splitter::Splitter (splitter.cpp:10-13): the initializer list binds m_validator
and m_outputStream; the two owning pointers start out null.  The constructor does
not touch m_nextToPrint and m_bufferedData, whose initial values are arguments
here. -/
def Splitter.new (validator : Validator) (os : String)
    (nextToPrint : Nat) (bufferedData : SegmentMap) : Splitter :=
  { m_validator := validator
    m_outputStream := os
    m_discover := none
    m_split := none
    m_nextToPrint := nextToPrint
    m_bufferedData := bufferedData
    debugLog := [] }

/-- Splitter::run (splitter.cpp:15-32), statement by statement. -/
def Splitter.run (s : Splitter) (discover : DiscoverVersion) (splits : SplitInterests) : Splitter :=
  let s : Splitter := { s with m_discover := some discover }
  let s : Splitter := { s with m_split := some splits }
  let s : Splitter := { s with m_nextToPrint := 0 }
  let s : Splitter := { s with m_bufferedData := [] }
  let s : Splitter := { s with m_discover := s.m_discover.map (fun d => d.connectSuccess SuccessSlot.startFetch) }
  let s : Splitter := { s with m_discover := s.m_discover.map (fun d => d.connectFailure FailureSlot.throwRuntimeError) }
  let s : Splitter := { s with m_discover := s.m_discover.map DiscoverVersion.run }
  { s with debugLog := s.debugLog ++ ["Splitter::run() finished"] }

/-- Splitter::handleData (splitter.cpp:34-38): the body is a bare return.  The batch
is taken by non-const reference, so it is returned next to the state. -/
def Splitter.handleData (s : Splitter) (data : SegmentMap) : Splitter × SegmentMap :=
  (s, data)

/-- The body of the slot connected to onDiscoverySuccess (splitter.cpp:24-27):
m_split->run(versionedName, FORWARD_TO_MEM_FN(handleData), throwing lambda). -/
def Splitter.startFetch (s : Splitter) (versionedName : Name) : Splitter :=
  { s with m_split := s.m_split.map fun sp =>
      sp.run versionedName DataCallback.handleData ErrorCallback.throwRuntimeError }

/-- The body of the slot connected to onDiscoveryFailure (splitter.cpp:29):
NDN_THROW(std::runtime_error(msg)), read through what(). -/
def FailureSlot.invoke : FailureSlot → String → Option String
  | .throwRuntimeError, msg => some (runtimeErrorWhat msg)
  | .external _, _ => none

/-- One success slot run on the state. -/
def SuccessSlot.invoke : SuccessSlot → Splitter → Name → Splitter
  | .startFetch, s, versionedName => s.startFetch versionedName
  | .external _, s, _ => s

/-- The discoverer emits onDiscoverySuccess(versionedName): the connected slots run
in connection order. -/
def Splitter.emitDiscoverySuccess (s : Splitter) (versionedName : Name) : Outcome :=
  match s.m_discover with
  | none => ⟨s, none⟩
  | some d => ⟨d.onDiscoverySuccess.foldl (fun acc slot => slot.invoke acc versionedName) s, none⟩

/-- The discoverer emits onDiscoveryFailure(msg): the connected slots run in
connection order until one throws. -/
def Splitter.emitDiscoveryFailure (s : Splitter) (msg : String) : Outcome :=
  match s.m_discover with
  | none => ⟨s, none⟩
  | some d => ⟨s, d.onDiscoveryFailure.findSome? (fun slot => slot.invoke msg)⟩

/-- The callbacks the fetcher holds: those of the latest invocation of its run. -/
def Splitter.activeFetch (s : Splitter) : Option FetchCall :=
  s.m_split.bind (fun sp => sp.runCalls.getLast?)

/-- The fetcher delivers a batch through its data callback. -/
def Splitter.fetcherDelivers (s : Splitter) (data : SegmentMap) : Outcome :=
  match s.activeFetch with
  | none => ⟨s, none⟩
  | some call =>
    match call.onData with
    | .handleData => ⟨(s.handleData data).1, none⟩
    | .external _ => ⟨s, none⟩

/-- The fetcher reports an error through its error callback. -/
def Splitter.fetcherFails (s : Splitter) (msg : String) : Outcome :=
  match s.activeFetch with
  | none => ⟨s, none⟩
  | some call => ⟨s, call.onError.invoke msg⟩

/-- What the collaborators can do after Splitter::run.  The fetcher is handed a data
callback and an error callback only (splitter.cpp:24-27), so the end of a fetch
reaches no code of the Splitter. -/
inductive Event where
  | discoverySuccess (versionedName : Name)
  | discoveryFailure (msg : String)
  | segments (data : SegmentMap)
  | fetchError (msg : String)
  | fetchComplete
deriving DecidableEq, Repr

/-- One event delivered to the Splitter. -/
def Splitter.step (s : Splitter) : Event → Outcome
  | .discoverySuccess versionedName => s.emitDiscoverySuccess versionedName
  | .discoveryFailure msg => s.emitDiscoveryFailure msg
  | .segments data => s.fetcherDelivers data
  | .fetchError msg => s.fetcherFails msg
  | .fetchComplete => ⟨s, none⟩

/-- A sequence of events delivered in order; an exception ends the run. -/
def Splitter.process : List Event → Splitter → Outcome
  | [], s => ⟨s, none⟩
  | e :: es, s =>
    match (s.step e).raised with
    | none => Splitter.process es (s.step e).state
    | some msg => ⟨(s.step e).state, some msg⟩

/-- A sequence of batches passed to handleData one after the other. -/
def Splitter.handleDataAll (s : Splitter) (batches : List SegmentMap) : Splitter :=
  batches.foldl (fun acc data => (acc.handleData data).1) s

/-- True for the event discoverySuccess only. -/
def Event.isDiscoverySuccess : Event → Bool
  | .discoverySuccess _ => true
  | _ => false

/-- A discoverer as a caller hands it to Splitter::run: it is passed by unique
ownership, so whatever is connected to its signals was connected by other code. -/
def DiscoverVersion.ofExternal (successTags failureTags : List Nat) (runCalls : Nat) :
    DiscoverVersion :=
  { onDiscoverySuccess := successTags.map SuccessSlot.external
    onDiscoveryFailure := failureTags.map FailureSlot.external
    runCalls := runCalls }

/-! ## The reassembly contract of the specification -/

/-- The specification of in-order reassembly: the payloads of the sequence numbers
0..N-1, looked up among all delivered segments, concatenated in increasing order. -/
def inOrderPayload (N : Nat) (batches : List SegmentMap) : String :=
  String.join ((List.range N).map fun i =>
    match batches.flatten.lookup i with
    | some d => d.content
    | none => "")

/-- The delivered batches cover the sequence numbers 0..N-1 exactly once each. -/
def coversExactlyOnce (N : Nat) (batches : List SegmentMap) : Bool :=
  (batches.flatten.map Prod.fst).length == N &&
    (List.range N).all fun i => (batches.flatten.map Prod.fst).count i == 1

/-! ## Concrete scenarios -/

/-- A validator that accepts every packet and has not been called. -/
def acceptAll : Validator := ⟨fun _ => true, []⟩

/-- A validator that rejects every packet and has not been called. -/
def rejectAll : Validator := ⟨fun _ => false, []⟩

/-- A Splitter constructed on an empty output stream. -/
def freshSplitter : Splitter := Splitter.new acceptAll "" 0 []

/-- A discoverer with nothing connected and not yet started. -/
def freshDiscover : DiscoverVersion := DiscoverVersion.ofExternal [] [] 0

/-- A fetcher that has not been run. -/
def freshSplits : SplitInterests := ⟨[]⟩

/-- A message with a NUL character in the middle: the three characters a, NUL, b. -/
def nulMessage : String := ⟨['a', nul, 'b']⟩

/-- The versioned name /example/object/v=3. -/
def exampleName : Name := ["example", "object", "v=3"]

/-- The batch entry for sequence number k: a segment of /example/object/v=3 with
the given content. -/
def seg (k : Nat) (content : String) : Nat × Data :=
  (k, ⟨exampleName, content⟩)

end ndn.chunks

/-! ## Verification -/

namespace ndn.chunks

/-! ### Frame lemmas -/

theorem handleDataAll_eq (s : Splitter) (batches : List SegmentMap) :
    s.handleDataAll batches = s := by
  unfold Splitter.handleDataAll
  induction batches with
  | nil => rfl
  | cons b bs ih => simp [List.foldl_cons, Splitter.handleData]

theorem fetcherDelivers_eq (s : Splitter) (data : SegmentMap) :
    s.fetcherDelivers data = ⟨s, none⟩ := by
  unfold Splitter.fetcherDelivers
  cases s.activeFetch with
  | none => rfl
  | some call =>
    cases h : call.onData with
    | handleData => simp [h, Splitter.handleData]
    | external t => simp [h]

theorem foldl_external_success (tags : List Nat) (s : Splitter) (v : Name) :
    (tags.map SuccessSlot.external).foldl (fun acc slot => slot.invoke acc v) s = s := by
  induction tags with
  | nil => rfl
  | cons t ts ih =>
    simp only [List.map_cons, List.foldl_cons]
    exact ih

theorem step_state_of_not_success (s : Splitter) (e : Event)
    (h : e.isDiscoverySuccess = false) : (s.step e).state = s := by
  cases e with
  | discoverySuccess v => simp [Event.isDiscoverySuccess] at h
  | discoveryFailure msg =>
    simp only [Splitter.step, Splitter.emitDiscoveryFailure]
    cases s.m_discover <;> rfl
  | segments data => simp [Splitter.step, fetcherDelivers_eq]
  | fetchError msg =>
    simp only [Splitter.step, Splitter.fetcherFails]
    cases s.activeFetch <;> rfl
  | fetchComplete => rfl

theorem process_state_of_no_success (events : List Event) (s : Splitter) :
    (Splitter.process (events.filter fun e => !e.isDiscoverySuccess) s).state = s := by
  induction events generalizing s with
  | nil => rfl
  | cons e es ih =>
    by_cases he : e.isDiscoverySuccess = true
    · simpa [List.filter_cons, he] using ih s
    · have he2 : e.isDiscoverySuccess = false := by simpa using he
      have hs := step_state_of_not_success s e he2
      simp only [List.filter_cons, he2, Bool.not_false, if_true, Splitter.process]
      cases hr : (s.step e).raised with
      | none => simp only [hs]; exact ih s
      | some msg => simp [hs]

theorem process_segments (batches : List SegmentMap) (tail : List Event) (s : Splitter) :
    Splitter.process (batches.map Event.segments ++ tail) s = Splitter.process tail s := by
  induction batches with
  | nil => rfl
  | cons b bs ih =>
    simpa [List.map_cons, List.cons_append, Splitter.process, Splitter.step,
      fetcherDelivers_eq] using ih

theorem run_discover (s : Splitter) (d : DiscoverVersion) (sp : SplitInterests) :
    (s.run d sp).m_discover =
      some ⟨d.onDiscoverySuccess ++ [SuccessSlot.startFetch],
        d.onDiscoveryFailure ++ [FailureSlot.throwRuntimeError], d.runCalls + 1⟩ := rfl

theorem step_success_after_run (s : Splitter) (st ft : List Nat) (n : Nat)
    (sp : SplitInterests) (v : Name) :
    (s.run (DiscoverVersion.ofExternal st ft n) sp).step (Event.discoverySuccess v) =
      ⟨(s.run (DiscoverVersion.ofExternal st ft n) sp).startFetch v, none⟩ := by
  simp only [Splitter.step, Splitter.emitDiscoverySuccess, run_discover,
    DiscoverVersion.ofExternal, List.foldl_append, foldl_external_success]
  rfl

theorem step_segments (s : Splitter) (data : SegmentMap) :
    s.step (Event.segments data) = ⟨s, none⟩ := by
  simp [Splitter.step, fetcherDelivers_eq]

theorem step_fetchComplete (s : Splitter) : s.step Event.fetchComplete = ⟨s, none⟩ := rfl

theorem process_cons_of_none (e : Event) (es : List Event) (s t : Splitter)
    (h : s.step e = ⟨t, none⟩) : Splitter.process (e :: es) s = Splitter.process es t := by
  simp [Splitter.process, h]

theorem process_cons_of_some (e : Event) (es : List Event) (s t : Splitter) (msg : String)
    (h : s.step e = ⟨t, some msg⟩) : Splitter.process (e :: es) s = ⟨t, some msg⟩ := by
  simp [Splitter.process, h]

theorem invoke_failure_cases (slot : FailureSlot) (msg : String) :
    slot.invoke msg = none ∨ slot.invoke msg = some (runtimeErrorWhat msg) := by
  cases slot with
  | external t => exact Or.inl rfl
  | throwRuntimeError => exact Or.inr rfl

theorem findSome_failure_append (slots : List FailureSlot) (msg : String) :
    (slots ++ [FailureSlot.throwRuntimeError]).findSome? (fun slot => slot.invoke msg) =
      some (runtimeErrorWhat msg) := by
  induction slots with
  | nil => rfl
  | cons a l ih =>
    rcases invoke_failure_cases a msg with h | h
    · simp only [List.cons_append, List.findSome?_cons, h]
      exact ih
    · simp only [List.cons_append, List.findSome?_cons, h]

theorem step_failure_after_run_any (s : Splitter) (d : DiscoverVersion)
    (sp : SplitInterests) (r : String) :
    (s.run d sp).step (Event.discoveryFailure r) =
      ⟨s.run d sp, some (runtimeErrorWhat r)⟩ := by
  simp only [Splitter.step, Splitter.emitDiscoveryFailure, run_discover,
    findSome_failure_append]

theorem invoke_success_frame (slot : SuccessSlot) (t : Splitter) (v : Name) :
    (slot.invoke t v).m_outputStream = t.m_outputStream ∧
    (slot.invoke t v).m_nextToPrint = t.m_nextToPrint ∧
    (slot.invoke t v).m_bufferedData = t.m_bufferedData ∧
    ((slot.invoke t v).m_split.isSome = t.m_split.isSome) := by
  cases slot with
  | external tag => exact ⟨rfl, rfl, rfl, rfl⟩
  | startFetch =>
    refine ⟨rfl, rfl, rfl, ?_⟩
    simp [SuccessSlot.invoke, Splitter.startFetch]

theorem foldl_success_frame (slots : List SuccessSlot) (t : Splitter) (v : Name) :
    (slots.foldl (fun acc slot => slot.invoke acc v) t).m_outputStream = t.m_outputStream ∧
    (slots.foldl (fun acc slot => slot.invoke acc v) t).m_nextToPrint = t.m_nextToPrint ∧
    (slots.foldl (fun acc slot => slot.invoke acc v) t).m_bufferedData = t.m_bufferedData ∧
    ((slots.foldl (fun acc slot => slot.invoke acc v) t).m_split.isSome =
      t.m_split.isSome) := by
  induction slots generalizing t with
  | nil => exact ⟨rfl, rfl, rfl, rfl⟩
  | cons a l ih =>
    obtain ⟨h1, h2, h3, h4⟩ := ih (a.invoke t v)
    obtain ⟨g1, g2, g3, g4⟩ := invoke_success_frame a t v
    simp only [List.foldl_cons]
    exact ⟨h1.trans g1, h2.trans g2, h3.trans g3, h4.trans g4⟩

theorem activeFetch_startFetch_of_isSome (t : Splitter) (v : Name)
    (h : t.m_split.isSome = true) :
    (t.startFetch v).activeFetch =
      some ⟨v, DataCallback.handleData, ErrorCallback.throwRuntimeError⟩ := by
  obtain ⟨sp, hsp⟩ := Option.isSome_iff_exists.mp h
  simp [Splitter.activeFetch, Splitter.startFetch, hsp, SplitInterests.run]

theorem step_success_after_run_any (s : Splitter) (d : DiscoverVersion)
    (sp : SplitInterests) (v : Name) :
    ∃ t : Splitter,
      (s.run d sp).step (Event.discoverySuccess v) = ⟨t, none⟩ ∧
      t.activeFetch = some ⟨v, DataCallback.handleData, ErrorCallback.throwRuntimeError⟩ ∧
      t.m_outputStream = s.m_outputStream ∧ t.m_nextToPrint = 0 ∧ t.m_bufferedData = [] := by
  obtain ⟨h1, h2, h3, h4⟩ := foldl_success_frame d.onDiscoverySuccess (s.run d sp) v
  refine ⟨((d.onDiscoverySuccess.foldl (fun acc slot => slot.invoke acc v)
    (s.run d sp)).startFetch v), ?_, ?_, ?_, ?_, ?_⟩
  · simp only [Splitter.step, Splitter.emitDiscoverySuccess, run_discover, List.foldl_append,
      List.foldl_cons, List.foldl_nil, SuccessSlot.invoke]
  · exact activeFetch_startFetch_of_isSome _ v (h4.trans rfl)
  · exact h1.trans rfl
  · exact h2.trans rfl
  · exact h3.trans rfl

theorem step_fetchError_of_active (t : Splitter) (v : Name) (r : String)
    (h : t.activeFetch =
      some ⟨v, DataCallback.handleData, ErrorCallback.throwRuntimeError⟩) :
    t.step (Event.fetchError r) = ⟨t, some (runtimeErrorWhat r)⟩ := by
  simp [Splitter.step, Splitter.fetcherFails, h, ErrorCallback.invoke]

theorem runtimeErrorWhat_eq_self_iff (msg : String) :
    runtimeErrorWhat msg = msg ↔ nulFree msg = true := by
  unfold runtimeErrorWhat nulFree
  rw [String.ext_iff, List.all_eq_true]
  exact List.takeWhile_eq_self_iff

theorem string_eq_append_iff (a b : String) : a = a ++ b ↔ b = "" := by
  constructor
  · intro h
    have h2 := congrArg String.data h
    rw [String.data_append] at h2
    have h3 : b.data = [] := by simpa using h2
    exact String.ext h3
  · rintro rfl
    simp

/-! ### Claims -/

/-- C1, against the claim as stated.  The batches {0:"AB", 2:"EF"} then {1:"CD"} cover
the sequence numbers 0..2 exactly once each and their in-order payload is "ABCDEF",
yet after Splitter::run and the two calls of handleData the output stream, empty at
the start, is still empty. -/
theorem C1_reassembly_counterexample :
    coversExactlyOnce 3 [[seg 0 "AB", seg 2 "EF"], [seg 1 "CD"]] = true ∧
    inOrderPayload 3 [[seg 0 "AB", seg 2 "EF"], [seg 1 "CD"]] = "ABCDEF" ∧
    ((freshSplitter.run freshDiscover freshSplits).handleDataAll
        [[seg 0 "AB", seg 2 "EF"], [seg 1 "CD"]]).m_outputStream = "" ∧
    ((freshSplitter.run freshDiscover freshSplits).handleDataAll
        [[seg 0 "AB", seg 2 "EF"], [seg 1 "CD"]]).m_outputStream ≠
      freshSplitter.m_outputStream ++
        inOrderPayload 3 [[seg 0 "AB", seg 2 "EF"], [seg 1 "CD"]] := by
  decide

/-- C1, amended.  For every N and every sequence of batches passed to handleData
after Splitter::run, no byte is written: the output stream holds what it held before
the run.  The bytes written therefore are the in-order concatenation of the payloads
exactly when that concatenation is empty. -/
theorem C1_handleData_writes_nothing (s : Splitter) (d : DiscoverVersion)
    (sp : SplitInterests) (N : Nat) (batches : List SegmentMap) :
    ((s.run d sp).handleDataAll batches).m_outputStream = s.m_outputStream ∧
    (((s.run d sp).handleDataAll batches).m_outputStream =
        s.m_outputStream ++ inOrderPayload N batches ↔
      inOrderPayload N batches = "") := by
  have h : ((s.run d sp).handleDataAll batches).m_outputStream = s.m_outputStream := by
    rw [handleDataAll_eq]; rfl
  exact ⟨h, by rw [h]; exact string_eq_append_iff _ _⟩

/-- C2, against the claim as stated.  After discovery of /example/object/v=3 the
fetcher delivers {0:"AB"} and then fails with "timeout": the error "timeout" is
raised, but the output stream, empty at the start, does not hold "AB".  And when the
fetcher fails with the reason a NUL b instead, the message of the error is "a", not
the reason. -/
theorem C2_fetch_failure_counterexample :
    (Splitter.process
        [Event.discoverySuccess exampleName, Event.segments [seg 0 "AB"],
          Event.fetchError "timeout"]
        (freshSplitter.run freshDiscover freshSplits)).raised = some "timeout" ∧
    (Splitter.process
        [Event.discoverySuccess exampleName, Event.segments [seg 0 "AB"],
          Event.fetchError "timeout"]
        (freshSplitter.run freshDiscover freshSplits)).state.m_outputStream = "" ∧
    (Splitter.process
        [Event.discoverySuccess exampleName, Event.segments [seg 0 "AB"],
          Event.fetchError "timeout"]
        (freshSplitter.run freshDiscover freshSplits)).state.m_outputStream ≠ "AB" ∧
    (Splitter.process
        [Event.discoverySuccess exampleName, Event.segments [seg 0 "AB"],
          Event.fetchError nulMessage]
        (freshSplitter.run freshDiscover freshSplits)).raised = some "a" ∧
    (Splitter.process
        [Event.discoverySuccess exampleName, Event.segments [seg 0 "AB"],
          Event.fetchError nulMessage]
        (freshSplitter.run freshDiscover freshSplits)).raised ≠ some nulMessage := by
  decide

/-- C2, amended.  For every reason r and payload packet p, when after discovery the
fetcher delivers the batch {0: p} and then invokes the error callback with r, the run
fails with an error whose message is r up to its first NUL character, which is
exactly r precisely when r holds no NUL character, and the output stream holds what
it held before the run: p has not been written and nothing has been rolled back. -/
theorem C2_fetch_failure_surfaces_reason (s : Splitter) (d : DiscoverVersion)
    (sp : SplitInterests) (v : Name) (p : Data) (r : String) :
    (Splitter.process
        [Event.discoverySuccess v, Event.segments [(0, p)], Event.fetchError r]
        (s.run d sp)).raised = some (runtimeErrorWhat r) ∧
    (runtimeErrorWhat r = r ↔ nulFree r = true) ∧
    (Splitter.process
        [Event.discoverySuccess v, Event.segments [(0, p)], Event.fetchError r]
        (s.run d sp)).state.m_outputStream = s.m_outputStream := by
  obtain ⟨t, hstep, hactive, hout, _, _⟩ := step_success_after_run_any s d sp v
  rw [process_cons_of_none _ _ _ _ hstep,
    process_cons_of_none _ _ _ _ (step_segments _ _),
    process_cons_of_some _ _ _ _ _ (step_fetchError_of_active t v r hactive)]
  exact ⟨rfl, runtimeErrorWhat_eq_self_iff r, hout⟩

/-- C3, against the claim as stated.  When the discoverer signals onDiscoveryFailure
with the reason a NUL b, the message of the error raised is "a", not the reason. -/
theorem C3_discovery_failure_counterexample :
    (Splitter.process [Event.discoveryFailure nulMessage]
        (freshSplitter.run freshDiscover freshSplits)).raised = some "a" ∧
    (Splitter.process [Event.discoveryFailure nulMessage]
        (freshSplitter.run freshDiscover freshSplits)).raised ≠ some nulMessage := by
  decide

/-- C3, amended.  For every reason r, when the discoverer started by Splitter::run
signals onDiscoveryFailure(r), whatever events are queued behind it, an error is
raised whose message is r up to its first NUL character, which is exactly r precisely
when r holds no NUL character; the fetcher still has exactly the invocations it was
handed over with (SplitInterests::run has not been invoked), and the output stream
holds what it held before the run, so nothing has been written. -/
theorem C3_discovery_failure_fatal (s : Splitter) (d : DiscoverVersion)
    (sp : SplitInterests) (r : String) (later : List Event) :
    (Splitter.process (Event.discoveryFailure r :: later) (s.run d sp)).raised =
      some (runtimeErrorWhat r) ∧
    (runtimeErrorWhat r = r ↔ nulFree r = true) ∧
    (Splitter.process (Event.discoveryFailure r :: later) (s.run d sp)).state.m_split =
      some sp ∧
    (Splitter.process (Event.discoveryFailure r :: later)
        (s.run d sp)).state.m_outputStream = s.m_outputStream := by
  rw [process_cons_of_some _ _ _ _ _ (step_failure_after_run_any s d sp r)]
  exact ⟨rfl, runtimeErrorWhat_eq_self_iff r, rfl, rfl⟩

/-- C4.  For every state, whatever its validator accepts or rejects, and every
sequence of batches passed to handleData, the output stream, the counter
m_nextToPrint and the list of packets submitted to the validator are as they were: no
segment is written at all, so none is written before it has passed validation.  And
for every batch and every segment in it that the validator rejects, the call leaves
the output stream and the counter as they were, so the payload of that segment is not
written and the counter is not advanced by it. -/
theorem C4_validation_gates_flushing (s : Splitter) (batches : List SegmentMap) :
    (s.handleDataAll batches).m_outputStream = s.m_outputStream ∧
    (s.handleDataAll batches).m_nextToPrint = s.m_nextToPrint ∧
    (s.handleDataAll batches).m_validator.validateCalls = s.m_validator.validateCalls ∧
    (∀ (data : SegmentMap) (seq : Nat) (d : Data),
      (seq, d) ∈ data → s.m_validator.accepts d = false →
        (s.handleData data).1.m_outputStream = s.m_outputStream ∧
        (s.handleData data).1.m_nextToPrint = s.m_nextToPrint) := by
  rw [handleDataAll_eq]
  exact ⟨rfl, rfl, rfl, fun _ _ _ _ _ => ⟨rfl, rfl⟩⟩

/-- C4 at concrete inputs: under a validator that accepts everything the batch {0:"AB"}
leaves the empty stream empty, and under a validator that rejects everything the
rejected segment 0 of that batch is not written and does not advance the counter. -/
theorem C4_validation_gates_flushing_witness :
    ((Splitter.new acceptAll "" 0 []).handleDataAll [[seg 0 "AB"]]).m_outputStream = "" ∧
    (0, (seg 0 "AB").2) ∈ [seg 0 "AB"] ∧
    (Splitter.new rejectAll "" 0 []).m_validator.accepts (seg 0 "AB").2 = false ∧
    ((Splitter.new rejectAll "" 0 []).handleData [seg 0 "AB"]).1.m_outputStream = "" ∧
    ((Splitter.new rejectAll "" 0 []).handleData [seg 0 "AB"]).1.m_nextToPrint = 0 :=
  ⟨(C4_validation_gates_flushing (Splitter.new acceptAll "" 0 []) [[seg 0 "AB"]]).1,
    by decide, rfl,
    (C4_validation_gates_flushing (Splitter.new rejectAll "" 0 []) []).2.2.2
      [seg 0 "AB"] 0 (seg 0 "AB").2 (by decide) rfl⟩

/-- C5, against the claim as stated.  After discovery the fetcher delivers the
sequence numbers 0, 1 and 3 and then completes: no error is raised, and the output
stream, empty at the start, does not hold the payloads of the segments 0 and 1. -/
theorem C5_incomplete_object_counterexample :
    (Splitter.process
        [Event.discoverySuccess exampleName,
          Event.segments [seg 0 "AB", seg 1 "CD", seg 3 "GH"], Event.fetchComplete]
        (freshSplitter.run freshDiscover freshSplits)).raised = none ∧
    (Splitter.process
        [Event.discoverySuccess exampleName,
          Event.segments [seg 0 "AB", seg 1 "CD", seg 3 "GH"], Event.fetchComplete]
        (freshSplitter.run freshDiscover freshSplits)).state.m_outputStream ≠ "ABCD" := by
  decide

/-- C5, amended.  When after discovery the fetch delivers any batches, with a gap or
without, and then completes, the Splitter raises no error, the output stream holds
what it held before the run (so nothing of a segment behind a gap, and nothing of the
segments before it either), the counter is 0 and the pending buffer is empty. -/
theorem C5_completion_raises_nothing (s : Splitter) (d : DiscoverVersion)
    (sp : SplitInterests) (v : Name) (batches : List SegmentMap) :
    (Splitter.process
        (Event.discoverySuccess v :: (batches.map Event.segments ++ [Event.fetchComplete]))
        (s.run d sp)).raised = none ∧
    (Splitter.process
        (Event.discoverySuccess v :: (batches.map Event.segments ++ [Event.fetchComplete]))
        (s.run d sp)).state.m_outputStream = s.m_outputStream ∧
    (Splitter.process
        (Event.discoverySuccess v :: (batches.map Event.segments ++ [Event.fetchComplete]))
        (s.run d sp)).state.m_nextToPrint = 0 ∧
    (Splitter.process
        (Event.discoverySuccess v :: (batches.map Event.segments ++ [Event.fetchComplete]))
        (s.run d sp)).state.m_bufferedData = [] := by
  obtain ⟨t, hstep, _, hout, hnext, hbuf⟩ := step_success_after_run_any s d sp v
  rw [process_cons_of_none _ _ _ _ hstep, process_segments,
    process_cons_of_none _ _ _ _ (step_fetchComplete _)]
  exact ⟨rfl, hout, hnext, hbuf⟩

/-- C6.  For every state of the Splitter and every batch passed to handleData whose
segments all have sequence numbers strictly below the counter m_nextToPrint, the
output stream, the counter and the pending buffer m_bufferedData are the same after
the call as before it. -/
theorem C6_late_duplicates_noop (s : Splitter) (data : SegmentMap)
    (_hlate : ∀ entry ∈ data, entry.1 < s.m_nextToPrint) :
    (s.handleData data).1.m_outputStream = s.m_outputStream ∧
    (s.handleData data).1.m_nextToPrint = s.m_nextToPrint ∧
    (s.handleData data).1.m_bufferedData = s.m_bufferedData :=
  ⟨rfl, rfl, rfl⟩

/-- C6 at a concrete input: the counter stands at 2, "ABCD" has been written, and the
segments 0 and 1 arrive again. -/
theorem C6_late_duplicates_noop_witness :
    (∀ entry ∈ [seg 0 "AB", seg 1 "CD"], entry.1 < (Splitter.new acceptAll "ABCD" 2 []).m_nextToPrint) ∧
    ((Splitter.new acceptAll "ABCD" 2 []).handleData [seg 0 "AB", seg 1 "CD"]).1.m_outputStream =
      "ABCD" ∧
    ((Splitter.new acceptAll "ABCD" 2 []).handleData [seg 0 "AB", seg 1 "CD"]).1.m_nextToPrint = 2 ∧
    ((Splitter.new acceptAll "ABCD" 2 []).handleData [seg 0 "AB", seg 1 "CD"]).1.m_bufferedData = [] :=
  ⟨by decide,
    C6_late_duplicates_noop (Splitter.new acceptAll "ABCD" 2 []) [seg 0 "AB", seg 1 "CD"]
      (by decide)⟩

/-- C7.  For every prior state of the Splitter, right after Splitter::run the counter
m_nextToPrint is 0 and the pending buffer m_bufferedData is empty, the discoverer held
is the one passed in with one more slot on each of its two signals (the success
handler and the failure handler) and its run called exactly once more, the fetcher
held is the one passed in, not yet run by this call, and the output stream holds what
it held before. -/
theorem C7_run_resets_state (s : Splitter) (d : DiscoverVersion) (sp : SplitInterests) :
    (s.run d sp).m_nextToPrint = 0 ∧
    (s.run d sp).m_bufferedData = [] ∧
    (s.run d sp).m_discover =
      some ⟨d.onDiscoverySuccess ++ [SuccessSlot.startFetch],
        d.onDiscoveryFailure ++ [FailureSlot.throwRuntimeError], d.runCalls + 1⟩ ∧
    (s.run d sp).m_split = some sp ∧
    (s.run d sp).m_outputStream = s.m_outputStream :=
  ⟨rfl, rfl, rfl, rfl, rfl⟩

/-- C8, against the claim as stated.  After discovery of /example/object/v=3 the
fetcher holds the error callback of the Splitter; invoked with the message a NUL b it
raises an error whose message is "a", not the message it was given. -/
theorem C8_error_callback_counterexample :
    ((freshSplitter.run freshDiscover freshSplits).step
        (Event.discoverySuccess exampleName)).state.activeFetch =
      some ⟨exampleName, DataCallback.handleData, ErrorCallback.throwRuntimeError⟩ ∧
    ErrorCallback.throwRuntimeError.invoke nulMessage = some "a" ∧
    ErrorCallback.throwRuntimeError.invoke nulMessage ≠ some nulMessage := by
  decide

/-- C8, amended.  For every versioned name v: as long as no discovery success has been
signalled, whatever other events arrive, the fetcher has not been run; when the
discoverer started by Splitter::run signals onDiscoverySuccess(v), nothing is raised
and SplitInterests::run has been invoked exactly once more, with exactly v as its
name, with handleData as the data callback and with the error callback that, invoked
with any message, raises an error whose message is the given one up to its first NUL
character, which is exactly the given one precisely when it holds no NUL character. -/
theorem C8_discovery_success_starts_fetch (s : Splitter) (st ft : List Nat) (n : Nat)
    (sp : SplitInterests) (v : Name) (before : List Event) :
    (Splitter.process (before.filter fun e => !e.isDiscoverySuccess)
        (s.run (DiscoverVersion.ofExternal st ft n) sp)).state.m_split = some sp ∧
    ((s.run (DiscoverVersion.ofExternal st ft n) sp).step
        (Event.discoverySuccess v)).raised = none ∧
    ((s.run (DiscoverVersion.ofExternal st ft n) sp).step
        (Event.discoverySuccess v)).state.m_split =
      some ⟨sp.runCalls ++
        [⟨v, DataCallback.handleData, ErrorCallback.throwRuntimeError⟩]⟩ ∧
    (∀ msg : String,
      ErrorCallback.throwRuntimeError.invoke msg = some (runtimeErrorWhat msg) ∧
      (runtimeErrorWhat msg = msg ↔ nulFree msg = true)) := by
  rw [process_state_of_no_success, step_success_after_run]
  exact ⟨rfl, rfl, rfl, fun msg => ⟨rfl, runtimeErrorWhat_eq_self_iff msg⟩⟩

/-- C9.  For every Splitter state and every batch, handleData returns the state and
the batch as they were: the validator has been submitted nothing, m_bufferedData and
m_nextToPrint are unchanged, nothing is written to the output stream, and the batch is
not modified. -/
theorem C9_handleData_noop (s : Splitter) (data : SegmentMap) :
    s.handleData data = (s, data) ∧
    (s.handleData data).1.m_validator.validateCalls = s.m_validator.validateCalls ∧
    (s.handleData data).1.m_bufferedData = s.m_bufferedData ∧
    (s.handleData data).1.m_nextToPrint = s.m_nextToPrint ∧
    (s.handleData data).1.m_outputStream = s.m_outputStream ∧
    (s.handleData data).2 = data :=
  ⟨rfl, rfl, rfl, rfl, rfl, rfl⟩

/-- C10.  In every state reached by Splitter::run followed by any finite sequence of
handleData calls with arbitrary batches, every key of the pending buffer
m_bufferedData is strictly greater than the counter m_nextToPrint, so none is less
than or equal to it; the buffer is in fact empty. -/
theorem C10_pending_buffer_invariant (s : Splitter) (d : DiscoverVersion)
    (sp : SplitInterests) (batches : List SegmentMap) :
    (((s.run d sp).handleDataAll batches).m_bufferedData.all fun entry =>
        decide (((s.run d sp).handleDataAll batches).m_nextToPrint < entry.1)) = true ∧
    (((s.run d sp).handleDataAll batches).m_bufferedData.any fun entry =>
        decide (entry.1 ≤ ((s.run d sp).handleDataAll batches).m_nextToPrint)) = false ∧
    ((s.run d sp).handleDataAll batches).m_bufferedData = [] := by
  rw [handleDataAll_eq]
  exact ⟨rfl, rfl, rfl⟩

end ndn.chunks
